import Mathlib

/-!
# Shallow embedding of `src/lib/fosphor/gl.c`

This file models the OpenGL part of fosphor (`gl.c`): the renderer state
(`struct fosphor_gl_state`), its lifecycle (`fosphor_gl_init`,
`fosphor_gl_release`), the deferred creation of GPU objects
(`gl_deferred_init`, reachable only through `fosphor_gl_get_shared_id`),
and the per-frame draw orchestration (`fosphor_gl_draw`).

Modelling conventions:
* Every GL call that has an observable effect is recorded as a `GLEvent` in
  an event trace; the trace order is the call order of the source.
* C `float` arithmetic is embedded as exact rational (`ℚ`) arithmetic;
  `ceilf`/`floorf` followed by an `(int)` cast become `Int.ceil`/`Int.floor`.
* GL object names produced by `glGenTextures`/`glGenBuffers` come from a
  monotone counter (`names`); fresh names are `names + 1, names + 2, …`, so
  a live name is never `0` (as in GL, where `0` is not a valid object name).
* `FOSPHOR_FFT_LEN` is defined in a header that is not part of the sources
  at hand, so the FFT length is a parameter `N` of every definition that
  reads it (the spec's end-to-end example instantiates it at `1024`).
* Heap/GPU residency is tracked by an allocation counter per resource kind
  (`Heap`), so leak freedom is the statement that a counter returns to its
  initial value.
-/

namespace FosphorGL

/-! ## GL enumerant values used by `gl.c` -/

def GL_LINEAR : ℕ := 9729
def GL_REPEAT : ℕ := 10497
def GL_CLAMP_TO_EDGE : ℕ := 33071

/-- Modelled from the spec: `GL_CMAP_MODE_BILINEAR` is declared in
`gl_cmap.h`, which is not among the sources; the colormap stage has a
"nearest or bilinear" interpolation mode and `gl.c` only ever passes the
bilinear one, so the enumerant is represented by an opaque-but-fixed code. -/
def GL_CMAP_MODE_BILINEAR : ℕ := 1

/-! ## Data model: `struct fosphor_gl_state` and the render request -/

/-- Structure `fosphor_gl_state` (gl.c lines 48-62).  GL object names and the
opaque pointers (`font`, `cmap_ctx`) are `ℕ` handles with `0` as NULL. -/
structure GlState where
  init_complete : Bool
  font : ℕ
  cmap_ctx : ℕ
  cmap_waterfall : ℕ
  cmap_histogram : ℕ
  tex_waterfall : ℕ
  tex_histogram : ℕ
  vbo_spectrum : ℕ
deriving DecidableEq

/-- The all-zero state produced by `memset(gl, 0, sizeof(*gl))`. -/
def GlState.zeroed : GlState :=
  ⟨false, 0, 0, 0, 0, 0, 0, 0⟩

/-- The `FRO_*` bits of `render->options`, one `Bool` per bitmask flag. -/
structure RenderOptions where
  waterfall : Bool
  histo : Bool
  live : Bool
  maxHold : Bool
  labelPwr : Bool
  labelFreq : Bool
deriving DecidableEq

/-- The fields of `struct fosphor_render` read by `fosphor_gl_draw`:
screen rectangles, the normalized frequency window, the waterfall scroll
window and the label anchor positions. -/
structure Render where
  options : RenderOptions
  freq_start : ℚ
  freq_stop : ℚ
  wf_span : ℚ
  wf_pos : ℤ
  x0 : ℚ
  x1 : ℚ
  y_wf0 : ℚ
  y_wf1 : ℚ
  y_histo0 : ℚ
  y_histo1 : ℚ
  x_div : ℚ
  y_histo_div : ℚ
  x_label : ℚ
  y_label : ℚ
deriving DecidableEq

/-- Field `self->power`: amplitude calibration read by `fosphor_gl_draw`. -/
structure PowerCal where
  scale : ℚ
  offset : ℚ
  db_ref : ℤ
  db_per_div : ℤ
deriving DecidableEq

/-- Field `self->frequency`: frequency calibration handed to `freq_axis_build`. -/
structure FreqCal where
  center : ℚ
  span : ℚ
deriving DecidableEq

/-! ## Event trace -/

/-- One observable GL (or collaborator) call issued by `gl.c`.  Draw-side
primitives are recorded one event per `glBegin`/`glEnd` block (or per
`glDrawArrays` call), carrying every parameter the source computes. -/
inductive GLEvent where
  /-- call `glGenTextures(1, &name)` -/
  | genTexture (name : ℕ)
  /-- call `glBindTexture(GL_TEXTURE_2D, name)` -/
  | bindTexture (name : ℕ)
  /-- the four `glTexParameteri` filter/wrap settings of one texture -/
  | texFilterWrap (name magF minF wrapS wrapT : ℕ)
  /-- call `glTexImage2D(..., width, height, ...)` allocating texture storage -/
  | texImage2D (name width height : ℕ)
  /-- one `glTexSubImage2D` zero-fill tile -/
  | texSubImage2D (name x y w h : ℕ)
  /-- call `glGenBuffers(1, &name)` -/
  | genBuffer (name : ℕ)
  /-- call `glBindBuffer(GL_ARRAY_BUFFER, name)` -/
  | bindBuffer (name : ℕ)
  /-- call `glBufferData(GL_ARRAY_BUFFER, len, NULL, GL_DYNAMIC_DRAW)` -/
  | bufferData (name len : ℕ)
  /-- the `glMapBuffer` + `memset` + `glUnmapBuffer` clear of a VBO -/
  | vboMapClear (name len : ℕ)
  /-- call `glDeleteBuffers(1, &name)` -/
  | deleteBuffer (name : ℕ)
  /-- call `glDeleteTextures(1, &name)` -/
  | deleteTexture (name : ℕ)
  /-- call `fosphor_gl_cmap_release(ctx)` -/
  | cmapRelease (ctx : ℕ)
  /-- call `glf_free(font)` -/
  | fontFree (font : ℕ)
  /-- call `free(gl)` releasing the state structure -/
  | freeState
  /-- call `glf_alloc(8, GLF_FLG_LCD)` -/
  | fontAlloc
  /-- call `resource_get("DroidSansMonoDotted.ttf", &len)` -/
  | resourceGet
  /-- call `glf_load_face_mem(font, data, len)` -/
  | loadFace
  /-- call `fosphor_gl_cmap_init()` -/
  | cmapInit
  /-- call `fosphor_gl_cmap_generate(&id, fn, size)` -/
  | cmapGenerate (id size : ℕ)
  /-- the waterfall quad: cmap-enabled textured quad (gl.c lines 324-352) -/
  | waterfallQuad (ctx tex lut : ℕ) (scale offset : ℚ) (mode : ℕ)
      (u0 u1 v0 v1 x0 x1 y0 y1 : ℚ)
  /-- the histogram quad: cmap-enabled textured quad (gl.c lines 354-381) -/
  | histogramQuad (ctx tex lut : ℕ) (scale offset : ℚ) (mode : ℕ)
      (u0 u1 v0 v1 x0 x1 y0 y1 : ℚ)
  /-- the flat dark background quad (gl.c lines 382-398) -/
  | bgQuad (r g b : ℚ) (x0 x1 y0 y1 : ℚ)
  /-- call `glPushMatrix()` -/
  | pushMatrix
  /-- call `glTranslatef(tx, ty, tz)` -/
  | translate (tx ty tz : ℚ)
  /-- call `glScalef(sx, sy, sz)` -/
  | scaleM (sx sy sz : ℚ)
  /-- call `glPopMatrix()` -/
  | popMatrix
  /-- live-spectrum `glDrawArrays(GL_LINE_STRIP, first, count)` -/
  | lineStripLive (r g b a : ℚ) (first count : ℤ)
  /-- max-hold `glDrawArrays(GL_LINE_STRIP, first, count)` -/
  | lineStripHold (r g b a : ℚ) (first count : ℤ)
  /-- one vertical grid line (`glBegin(GL_LINES)` block) -/
  | gridVLine (x y0 y1 : ℚ)
  /-- one horizontal grid line (`glBegin(GL_LINES)` block) -/
  | gridHLine (x0 x1 y : ℚ)
  /-- one power-axis `glf_printf` label -/
  | powerLabel (x y : ℚ) (value : ℤ)
  /-- one frequency-axis `glf_printf` label (`freq_axis_render` output) -/
  | freqLabel (x y : ℚ) (center span : ℚ) (division : ℤ)
  /-- call `glFinish()` -/
  | finish
deriving DecidableEq

/-! ## Helpers: `gl_tex2d_float_clear` and `gl_vbo_clear` -/

/-- Helper `gl_tex2d_float_clear` (gl.c lines 69-87): binds the texture and
zero-fills it in 16×16 tiles, clamping the last tile to the remainder. -/
def gl_tex2d_float_clear (tex width height : ℕ) : List GLEvent :=
  .bindTexture tex ::
    (List.range ((height + 15) / 16)).flatMap (fun ty =>
      (List.range ((width + 15) / 16)).flatMap (fun tx =>
        [.texSubImage2D tex (16 * tx) (16 * ty)
          (min 16 (width - 16 * tx)) (min 16 (height - 16 * ty))]))

/-- Helper `gl_vbo_clear` (gl.c lines 89-103): bind, map, memset, unmap. -/
def gl_vbo_clear (vbo len : ℕ) : List GLEvent :=
  [.bindBuffer vbo, .vboMapClear vbo len]

/-! ## `gl_deferred_init` -/

/-- Function `gl_deferred_init` (gl.c lines 123-172).  If `init_complete` is already
set it does nothing; otherwise it sets the flag and creates, in order, the
waterfall texture (`N × 1024`, repeat-wrapped both axes), the histogram
texture (`N × 128`, repeat on the bin axis, clamped on the amplitude axis)
and the spectrum VBO of `2 * sizeof(float) * 2 * N` bytes, zero-filling
each.  `N` stands for `FOSPHOR_FFT_LEN`; `names` is the GL name counter. -/
def gl_deferred_init (N : ℕ) (gl : GlState) (names : ℕ) :
    GlState × ℕ × List GLEvent :=
  if gl.init_complete then (gl, names, [])
  else
    let wf := names + 1
    let hist := names + 2
    let vbo := names + 3
    ({ gl with
        init_complete := true
        tex_waterfall := wf
        tex_histogram := hist
        vbo_spectrum := vbo },
     names + 3,
     [.genTexture wf, .bindTexture wf,
      .texFilterWrap wf GL_LINEAR GL_LINEAR GL_REPEAT GL_REPEAT,
      .texImage2D wf N 1024]
     ++ gl_tex2d_float_clear wf N 1024
     ++ [.genTexture hist, .bindTexture hist,
         .texFilterWrap hist GL_LINEAR GL_LINEAR GL_REPEAT GL_CLAMP_TO_EDGE,
         .texImage2D hist N 128]
     ++ gl_tex2d_float_clear hist N 128
     ++ [.genBuffer vbo, .bindBuffer vbo, .bufferData vbo (2 * 4 * 2 * N)]
     ++ gl_vbo_clear vbo (2 * 4 * 2 * N))

/-! ## `fosphor_gl_get_shared_id` -/

/-- Modelled from the spec: `enum fosphor_gl_id` is declared in `gl.h`,
which is not among the sources; it is a closed three-value enumeration
(waterfall texture, histogram texture, spectrum buffer) and C enumerators
without initializers take the consecutive values `0, 1, 2`. -/
def GL_ID_TEX_WATERFALL : ℤ := 0

/-- Modelled from the spec: second enumerator of `enum fosphor_gl_id`. -/
def GL_ID_TEX_HISTOGRAM : ℤ := 1

/-- Modelled from the spec: third enumerator of `enum fosphor_gl_id`. -/
def GL_ID_VBO_SPECTRUM : ℤ := 2

/-- Result of `fosphor_gl_get_shared_id`: the returned handle, the updated
`*self->gl` state, the updated GL name counter and the calls issued. -/
structure SharedIdResult where
  handle : ℕ
  gl : GlState
  names : ℕ
  events : List GLEvent
deriving DecidableEq

/-- Function `fosphor_gl_get_shared_id` (gl.c lines 263-286): runs
`gl_deferred_init` first (unconditionally), then selects the handle by the
`switch` on `id`, returning `0` for any value outside the enumeration.
`gl` is the (non-NULL) `*self->gl` the source dereferences. -/
def fosphor_gl_get_shared_id (N : ℕ) (gl : GlState) (names : ℕ) (id : ℤ) :
    SharedIdResult :=
  let d := gl_deferred_init N gl names
  let gl' := d.1
  let h : ℕ :=
    if id = GL_ID_TEX_WATERFALL then gl'.tex_waterfall
    else if id = GL_ID_TEX_HISTOGRAM then gl'.tex_histogram
    else if id = GL_ID_VBO_SPECTRUM then gl'.vbo_spectrum
    else 0
  ⟨h, gl', d.2.1, d.2.2⟩

/-! ## Heap accounting, `fosphor_gl_release` and `fosphor_gl_init` -/

/-- Live-allocation counters, one per resource kind: the state structure
(`malloc`/`free`), font objects (`glf_alloc`/`glf_free`), colormap
subsystem contexts (`fosphor_gl_cmap_init`/`fosphor_gl_cmap_release`), GL
textures and GL buffers. -/
structure Heap where
  stateAllocs : ℕ
  fontAllocs : ℕ
  cmapCtxAllocs : ℕ
  glTextures : ℕ
  glBuffers : ℕ
deriving DecidableEq

/-- Operation `glDeleteTextures(1, &name)`: the call is always issued; GL silently
ignores the reserved name `0`, so only a nonzero name frees an object. -/
def glDeleteTextureOp (name : ℕ) (heap : Heap) : Heap × List GLEvent :=
  (if name = 0 then heap else { heap with glTextures := heap.glTextures - 1 },
   [.deleteTexture name])

/-- Operation `glDeleteBuffers(1, &name)`: as for textures, name `0` is ignored. -/
def glDeleteBufferOp (name : ℕ) (heap : Heap) : Heap × List GLEvent :=
  (if name = 0 then heap else { heap with glBuffers := heap.glBuffers - 1 },
   [.deleteBuffer name])

/-- Modelled from the spec: `fosphor_gl_cmap_release` lives in `gl_cmap.c`,
which is not among the sources; teardown "releases … the colormap
subsystem" and is "safe to call on a partially initialized or
already-released state", so a NULL context is a no-op. -/
def fosphor_gl_cmap_release (ctx : ℕ) (heap : Heap) : Heap × List GLEvent :=
  (if ctx = 0 then heap
   else { heap with cmapCtxAllocs := heap.cmapCtxAllocs - 1 },
   [.cmapRelease ctx])

/-- Modelled from the spec: `glf_free` lives in the font renderer, which is
an external collaborator not among the sources; teardown is "safe to call
on a partially initialized" state, so freeing a NULL font is a no-op. -/
def glf_free (font : ℕ) (heap : Heap) : Heap × List GLEvent :=
  (if font = 0 then heap else { heap with fontAllocs := heap.fontAllocs - 1 },
   [.fontFree font])

/-- Result of `fosphor_gl_release`: the caller's `self->gl` afterwards, the
heap and the calls issued. -/
structure ReleaseResult where
  selfGl : Option GlState
  heap : Heap
  events : List GLEvent
deriving DecidableEq

/-- Function `fosphor_gl_release` (gl.c lines 234-260): returns immediately on a
NULL `self->gl`; otherwise deletes the spectrum VBO, the histogram and
waterfall textures, the two colormap LUT textures, releases the colormap
subsystem and the font, frees the state structure and NULLs `self->gl`. -/
def fosphor_gl_release (selfGl : Option GlState) (heap : Heap) :
    ReleaseResult :=
  match selfGl with
  | none => ⟨none, heap, []⟩
  | some gl =>
    let s1 := glDeleteBufferOp gl.vbo_spectrum heap
    let s2 := glDeleteTextureOp gl.tex_histogram s1.1
    let s3 := glDeleteTextureOp gl.tex_waterfall s2.1
    let s4 := glDeleteTextureOp gl.cmap_histogram s3.1
    let s5 := glDeleteTextureOp gl.cmap_waterfall s4.1
    let s6 := fosphor_gl_cmap_release gl.cmap_ctx s5.1
    let s7 := glf_free gl.font s6.1
    ⟨none, { s7.1 with stateAllocs := s7.1.stateAllocs - 1 },
     s1.2 ++ s2.2 ++ s3.2 ++ s4.2 ++ s5.2 ++ s6.2 ++ s7.2 ++ [.freeState]⟩

/-- Value `-ENOMEM` (allocation failure return of `fosphor_gl_init`). -/
def NEG_ENOMEM : ℤ := -12

/-- Value `-ENOENT` (missing-resource return of `fosphor_gl_init`). -/
def NEG_ENOENT : ℤ := -2

/-- Outcomes of the external collaborators called by `fosphor_gl_init`.
Modelled from the spec: `glf_alloc`, `resource_get`, `glf_load_face_mem`,
`fosphor_gl_cmap_init` and `fosphor_gl_cmap_generate` live outside the
sources at hand; each returns NULL / a nonzero `int` exactly when its step
fails, which is all `gl.c` observes of them. -/
structure InitEnv where
  mallocOk : Bool
  fontAllocOk : Bool
  fontResource : Option ℕ
  loadFaceRv : ℤ
  cmapInitOk : Bool
  cmapGenWfRv : ℤ
  cmapGenHistRv : ℤ
deriving DecidableEq

/-- Result of `fosphor_gl_init`: the returned `int`, the caller's
`self->gl` afterwards, the heap, the GL name counter and the calls made. -/
structure InitResult where
  rv : ℤ
  selfGl : Option GlState
  heap : Heap
  names : ℕ
  events : List GLEvent
deriving DecidableEq

/-- The `error:` label of `fosphor_gl_init` (gl.c lines 228-231): release
whatever was built, then return `rv`. -/
def initFail (rv : ℤ) (selfGl : Option GlState) (heap : Heap) (names : ℕ)
    (evs : List GLEvent) : InitResult :=
  let r := fosphor_gl_release selfGl heap
  ⟨rv, r.selfGl, r.heap, names, evs ++ r.events⟩

/-- Function `fosphor_gl_init` (gl.c lines 179-232): allocate and zero the state,
allocate the font object, fetch the embedded font bytes, parse the face,
initialize the colormap subsystem and generate the two 256-entry LUTs; the
three colormap results are folded together with C `|=` (`Int.lor`) and
checked once.  Any failure jumps to the `error:` label. -/
def fosphor_gl_init (env : InitEnv) (selfGl0 : Option GlState) (heap0 : Heap)
    (names0 : ℕ) : InitResult :=
  if env.mallocOk = false then ⟨NEG_ENOMEM, selfGl0, heap0, names0, []⟩
  else
    let heap1 := { heap0 with stateAllocs := heap0.stateAllocs + 1 }
    if env.fontAllocOk = false then
      initFail NEG_ENOMEM (some GlState.zeroed) heap1 names0 [.fontAlloc]
    else
      let heap2 := { heap1 with fontAllocs := heap1.fontAllocs + 1 }
      let gl1 : GlState := { GlState.zeroed with font := 1 }
      match env.fontResource with
      | none =>
        initFail NEG_ENOENT (some gl1) heap2 names0 [.fontAlloc, .resourceGet]
      | some _ =>
        if env.loadFaceRv ≠ 0 then
          initFail env.loadFaceRv (some gl1) heap2 names0
            [.fontAlloc, .resourceGet, .loadFace]
        else
          let ctxId : ℕ := if env.cmapInitOk then 1 else 0
          let heap3 :=
            if env.cmapInitOk then
              { heap2 with cmapCtxAllocs := heap2.cmapCtxAllocs + 1 }
            else heap2
          let rv0 : ℤ := if env.cmapInitOk then 0 else 1
          let wfId : ℕ := if env.cmapGenWfRv = 0 then names0 + 1 else 0
          let names1 := if env.cmapGenWfRv = 0 then names0 + 1 else names0
          let heap4 :=
            if env.cmapGenWfRv = 0 then
              { heap3 with glTextures := heap3.glTextures + 1 }
            else heap3
          let histId : ℕ := if env.cmapGenHistRv = 0 then names1 + 1 else 0
          let names2 := if env.cmapGenHistRv = 0 then names1 + 1 else names1
          let heap5 :=
            if env.cmapGenHistRv = 0 then
              { heap4 with glTextures := heap4.glTextures + 1 }
            else heap4
          let gl2 : GlState :=
            { gl1 with
                cmap_ctx := ctxId
                cmap_waterfall := wfId
                cmap_histogram := histId }
          let evs : List GLEvent :=
            [.fontAlloc, .resourceGet, .loadFace, .cmapInit,
             .cmapGenerate wfId 256, .cmapGenerate histId 256]
          let rv : ℤ := Int.lor (Int.lor rv0 env.cmapGenWfRv) env.cmapGenHistRv
          if rv = 0 then ⟨0, some gl2, heap5, names2, evs⟩
          else initFail rv (some gl2) heap5 names2 evs

/-! ## `fosphor_gl_draw` -/

/-- Function `fosphor_gl_draw` (gl.c lines 289-539), as the trace of calls it
issues.  `gl` is the dereferenced `self->gl`, `power` is `self->power`,
`freq` is `self->frequency`.  The sections appear in source order:
waterfall quad, histogram quad or dark background quad, spectrum polylines
(inside a matrix push/pop carrying the full transform chain), grid lines
with optional labels, and a final `glFinish`. -/
def fosphor_gl_draw (N : ℕ) (gl : GlState) (power : PowerCal)
    (freq : FreqCal) (render : Render) : List GLEvent :=
  let tw : ℚ := 1 / (N : ℚ)
  let bw : ℚ := 1 / ((N : ℚ) - 1)
  let wfSec : List GLEvent :=
    if render.options.waterfall then
      [.waterfallQuad gl.cmap_ctx gl.tex_waterfall gl.cmap_waterfall
        power.scale power.offset GL_CMAP_MODE_BILINEAR
        (1/2 + tw + (1 - tw) * render.freq_start)
        (1/2 + tw + (1 - tw) * render.freq_stop)
        ((render.wf_pos : ℚ) / 1024 - render.wf_span)
        ((render.wf_pos : ℚ) / 1024)
        render.x0 render.x1 render.y_wf0 render.y_wf1]
    else []
  let histoSec : List GLEvent :=
    if render.options.histo then
      [.histogramQuad gl.cmap_ctx gl.tex_histogram gl.cmap_histogram
        (11/10) 0 GL_CMAP_MODE_BILINEAR
        (1/2 + tw + (1 - tw) * render.freq_start)
        (1/2 + tw + (1 - tw) * render.freq_stop)
        0 1 render.x0 render.x1 render.y_histo0 render.y_histo1]
    else if render.options.live || render.options.maxHold then
      [.bgQuad 0 0 (1/10) render.x0 render.x1 render.y_histo0 render.y_histo1]
    else []
  let specSec : List GLEvent :=
    if render.options.live || render.options.maxHold then
      let idx0 : ℤ := 1 + ⌈render.freq_start * ((N : ℚ) - 1) - 1/2⌉
      let idx1 : ℤ := 1 + ⌊render.freq_stop * ((N : ℚ) - 1) - 1/2⌋
      let len : ℤ := idx1 - idx0 + 1
      [.pushMatrix,
       .translate render.x0 render.y_histo0 0,
       .scaleM (render.x1 - render.x0) (render.y_histo1 - render.y_histo0) 1,
       .scaleM 1 power.scale 1,
       .translate 0 power.offset 0,
       .scaleM (1 / (render.freq_stop - render.freq_start)) 1 1,
       .translate (-render.freq_start) 0 0,
       .translate (1/2 * bw) 0 0,
       .scaleM (1 - bw) 1 1,
       .translate (1/2) 0 0,
       .scaleM (1/2 / (1 - 2 * tw)) 1 1,
       .bindBuffer gl.vbo_spectrum]
      ++ (if render.options.live then
            [.lineStripLive 1 1 1 (3/4) idx0 len] else [])
      ++ (if render.options.maxHold then
            [.lineStripHold 1 0 0 (3/4) (idx0 + (N : ℤ)) len] else [])
      ++ [.popMatrix]
    else []
  let gridSec : List GLEvent :=
    if render.options.live || render.options.maxHold ||
        render.options.histo then
      (List.range 11).flatMap (fun i =>
        let xv := render.x0 + (i : ℚ) * render.x_div
        let yv := render.y_histo0 + (i : ℚ) * render.y_histo_div
        [.gridVLine (xv + 1/2) (render.y_histo0 + 1/2)
           (render.y_histo1 - 1/2),
         .gridHLine (render.x0 + 1/2) (render.x1 - 1/2) (yv + 1/2)]
        ++ (if render.options.labelPwr then
              [.powerLabel render.x_label yv
                (power.db_ref - (10 - (i : ℤ)) * power.db_per_div)]
            else [])
        ++ (if render.options.labelFreq then
              [.freqLabel
                (xv + (if i = 0 then (5 : ℚ) else if i = 10 then -5 else 0))
                render.y_label freq.center freq.span ((i : ℤ) - 5)]
            else []))
    else []
  wfSec ++ histoSec ++ specSec ++ gridSec ++ [.finish]

/-! ## Trace observations -/

/-- Is this event a GPU-object creation (`glGenTextures`/`glGenBuffers`)? -/
def isCreation : GLEvent → Bool
  | .genTexture _ => true
  | .genBuffer _ => true
  | _ => false

/-- Number of GPU-object creations in a trace. -/
def creationCount (evs : List GLEvent) : ℕ :=
  evs.countP isCreation

/-- The `(first, count)` arguments of the live-spectrum draw calls. -/
def liveStrips (evs : List GLEvent) : List (ℤ × ℤ) :=
  evs.filterMap (fun e =>
    match e with
    | .lineStripLive _ _ _ _ first count => some (first, count)
    | _ => none)

/-- The `(first, count)` arguments of the max-hold draw calls. -/
def holdStrips (evs : List GLEvent) : List (ℤ × ℤ) :=
  evs.filterMap (fun e =>
    match e with
    | .lineStripHold _ _ _ _ first count => some (first, count)
    | _ => none)

/-- The `(u0, u1, v0, v1)` texture coordinates of the waterfall quads. -/
def wfQuadCoords (evs : List GLEvent) : List (ℚ × ℚ × ℚ × ℚ) :=
  evs.filterMap (fun e =>
    match e with
    | .waterfallQuad _ _ _ _ _ _ u0 u1 v0 v1 _ _ _ _ => some (u0, u1, v0, v1)
    | _ => none)

/-- The `(u0, u1)` horizontal texture coordinates of the histogram quads. -/
def histoQuadCoords (evs : List GLEvent) : List (ℚ × ℚ) :=
  evs.filterMap (fun e =>
    match e with
    | .histogramQuad _ _ _ _ _ _ u0 u1 _ _ _ _ _ _ => some (u0, u1)
    | _ => none)

/-- Is this event a vertical grid line? -/
def isGridV : GLEvent → Bool
  | .gridVLine _ _ _ => true
  | _ => false

/-- Is this event a horizontal grid line? -/
def isGridH : GLEvent → Bool
  | .gridHLine _ _ _ => true
  | _ => false

/-- Is this event the `glFinish` barrier? -/
def isFinish : GLEvent → Bool
  | .finish => true
  | _ => false

/-- The `(x, y, printed value)` of the power-axis labels. -/
def powerLabels (evs : List GLEvent) : List (ℚ × ℚ × ℤ) :=
  evs.filterMap (fun e =>
    match e with
    | .powerLabel x y v => some (x, y, v)
    | _ => none)

/-- The horizontal positions of the frequency-axis labels. -/
def freqLabelXs (evs : List GLEvent) : List ℚ :=
  evs.filterMap (fun e =>
    match e with
    | .freqLabel x _ _ _ _ => some x
    | _ => none)

/-- Summary tags for the draw layers, in trace order. -/
inductive LayerTag where
  | wf
  | histo
  | bg
  | live
  | hold
  | grid
  | fin
deriving DecidableEq

/-- Classify a trace event into its draw layer (other events drop out). -/
def tagOf : GLEvent → Option LayerTag
  | .waterfallQuad _ _ _ _ _ _ _ _ _ _ _ _ _ _ => some .wf
  | .histogramQuad _ _ _ _ _ _ _ _ _ _ _ _ _ _ => some .histo
  | .bgQuad _ _ _ _ _ _ _ => some .bg
  | .lineStripLive _ _ _ _ _ _ => some .live
  | .lineStripHold _ _ _ _ _ _ => some .hold
  | .gridVLine _ _ _ => some .grid
  | .gridHLine _ _ _ => some .grid
  | .powerLabel _ _ _ => some .grid
  | .freqLabel _ _ _ _ _ => some .grid
  | .finish => some .fin
  | _ => none

/-- The layer sequence of a trace. -/
def layerTags (evs : List GLEvent) : List LayerTag :=
  evs.filterMap tagOf

/-- The grid/label layer tags contributed by one of the 11 grid lines. -/
def gridTagsPerLine (opts : RenderOptions) : List LayerTag :=
  [.grid, .grid] ++ (if opts.labelPwr then [.grid] else []) ++
    (if opts.labelFreq then [.grid] else [])

/-- The grid/label layer tags of a whole grid pass. -/
def gridTags (opts : RenderOptions) : List LayerTag :=
  (List.range 11).flatMap (fun _ => gridTagsPerLine opts)

/-- The fields of the new state installed by a first `gl_deferred_init`. -/
def GlState.afterDeferred (gl : GlState) (names : ℕ) : GlState :=
  { gl with
      init_complete := true
      tex_waterfall := names + 1
      tex_histogram := names + 2
      vbo_spectrum := names + 3 }

/-- The handle the `switch` of `fosphor_gl_get_shared_id` selects. -/
def selectHandle (gl : GlState) (id : ℤ) : ℕ :=
  if id = GL_ID_TEX_WATERFALL then gl.tex_waterfall
  else if id = GL_ID_TEX_HISTOGRAM then gl.tex_histogram
  else if id = GL_ID_VBO_SPECTRUM then gl.vbo_spectrum
  else 0

/-! ## Helper lemmas -/

theorem nat_lor_eq_zero_iff (m n : ℕ) : m ||| n = 0 ↔ m = 0 ∧ n = 0 := by
  constructor
  · intro h
    refine ⟨Nat.eq_of_testBit_eq fun i => ?_, Nat.eq_of_testBit_eq fun i => ?_⟩ <;>
    · have h2 : (m ||| n).testBit i = false := by
        rw [h]; exact Nat.zero_testBit i
      rw [Nat.testBit_or, Bool.or_eq_false_iff] at h2
      simp [Nat.zero_testBit, h2.1, h2.2]
  · rintro ⟨rfl, rfl⟩
    rfl

theorem int_lor_eq_zero_iff (a b : ℤ) : Int.lor a b = 0 ↔ a = 0 ∧ b = 0 := by
  cases a <;> cases b <;>
    simp [Int.lor, nat_lor_eq_zero_iff, Int.negSucc_ne_zero, Int.ofNat_eq_zero]

theorem countP_isCreation_tex2d_clear (t w h : ℕ) :
    List.countP isCreation (gl_tex2d_float_clear t w h) = 0 := by
  unfold gl_tex2d_float_clear
  rw [List.countP_eq_zero]
  intro e he
  rcases List.mem_cons.mp he with rfl | he2
  · simp [isCreation]
  · rcases List.mem_flatMap.mp he2 with ⟨ty, _, hty⟩
    rcases List.mem_flatMap.mp hty with ⟨tx, _, htx⟩
    rcases List.mem_singleton.mp htx with rfl
    simp [isCreation]

theorem creationCount_deferred (N : ℕ) (gl : GlState) (names : ℕ)
    (h : gl.init_complete = false) :
    creationCount (gl_deferred_init N gl names).2.2 = 3 := by
  simp only [gl_deferred_init, h, Bool.false_eq_true, if_false]
  simp [creationCount, gl_vbo_clear, List.countP_append, List.countP_cons,
    countP_isCreation_tex2d_clear, isCreation]

theorem shared_id_of_complete (N names : ℕ) (gl : GlState) (id : ℤ)
    (h : gl.init_complete = true) :
    fosphor_gl_get_shared_id N gl names id =
      ⟨selectHandle gl id, gl, names, []⟩ := by
  simp [fosphor_gl_get_shared_id, gl_deferred_init, h, selectHandle]

theorem shared_id_of_incomplete (N names : ℕ) (gl : GlState) (id : ℤ)
    (h : gl.init_complete = false) :
    (fosphor_gl_get_shared_id N gl names id).gl =
        GlState.afterDeferred gl names ∧
      (fosphor_gl_get_shared_id N gl names id).names = names + 3 ∧
      (fosphor_gl_get_shared_id N gl names id).handle =
        selectHandle (GlState.afterDeferred gl names) id ∧
      (fosphor_gl_get_shared_id N gl names id).events =
        (gl_deferred_init N gl names).2.2 := by
  simp [fosphor_gl_get_shared_id, gl_deferred_init, h, selectHandle,
    GlState.afterDeferred]

/-! ## Claim theorems -/

/-- C3: the shared-handle accessor is idempotent: with `init_complete`
still clear, the first call (whatever the id) performs the deferred
GPU-object creation exactly once (three `glGen*` calls), sets the
init-complete flag, and every later call performs no creation step (indeed
issues no GL call at all), leaves the state and name counter untouched,
and returns a handle identical to the first call's for the same id. -/
theorem C3_shared_handle_idempotent (N names : ℕ) (gl : GlState)
    (id id' : ℤ) (h : gl.init_complete = false) :
    let r := fosphor_gl_get_shared_id N gl names id
    let r' := fosphor_gl_get_shared_id N r.gl r.names id'
    creationCount r.events = 3 ∧ r.gl.init_complete = true ∧
    r'.events = [] ∧ creationCount r'.events = 0 ∧
    r'.gl = r.gl ∧ r'.names = r.names ∧
    (id' = id → r'.handle = r.handle) := by
  obtain ⟨hgl, hnames, hhandle, hevents⟩ :=
    shared_id_of_incomplete N names gl id h
  have hsecond :
      fosphor_gl_get_shared_id N (fosphor_gl_get_shared_id N gl names id).gl
          (fosphor_gl_get_shared_id N gl names id).names id' =
        ⟨selectHandle (GlState.afterDeferred gl names) id',
         GlState.afterDeferred gl names, names + 3, []⟩ := by
    rw [hgl, hnames]
    exact shared_id_of_complete N (names + 3) (GlState.afterDeferred gl names)
      id' rfl
  refine ⟨?_, ?_, ?_, ?_, ?_, ?_, ?_⟩
  · rw [hevents]
    exact creationCount_deferred N gl names h
  · rw [hgl]; rfl
  · rw [hsecond]
  · rw [hsecond]; rfl
  · rw [hsecond, hgl]
  · rw [hsecond, hnames]
  · intro hid
    subst hid
    rw [hsecond, hhandle]

/-- Witness for C3 at a concrete fresh state. -/
theorem C3_shared_handle_idempotent_witness :
    let r := fosphor_gl_get_shared_id 16 GlState.zeroed 0 GL_ID_TEX_WATERFALL
    let r' := fosphor_gl_get_shared_id 16 r.gl r.names GL_ID_TEX_WATERFALL
    creationCount r.events = 3 ∧ r.gl.init_complete = true ∧
    r'.events = [] ∧ creationCount r'.events = 0 ∧
    r'.gl = r.gl ∧ r'.names = r.names ∧
    (GL_ID_TEX_WATERFALL = GL_ID_TEX_WATERFALL → r'.handle = r.handle) :=
  C3_shared_handle_idempotent 16 0 GlState.zeroed GL_ID_TEX_WATERFALL
    GL_ID_TEX_WATERFALL rfl

/-- C9: for every `id` outside the enumeration `{waterfall texture,
histogram texture, spectrum buffer}`, the shared-handle accessor returns
the null handle `0` (it neither fails nor faults: it is total). -/
theorem C9_unknown_id_returns_zero (N names : ℕ) (gl : GlState) (id : ℤ)
    (h0 : id ≠ GL_ID_TEX_WATERFALL) (h1 : id ≠ GL_ID_TEX_HISTOGRAM)
    (h2 : id ≠ GL_ID_VBO_SPECTRUM) :
    (fosphor_gl_get_shared_id N gl names id).handle = 0 := by
  simp [fosphor_gl_get_shared_id, h0, h1, h2]

/-- Witness for C9 at the concrete unknown id `99`. -/
theorem C9_unknown_id_returns_zero_witness :
    (fosphor_gl_get_shared_id 16 GlState.zeroed 0 99).handle = 0 :=
  C9_unknown_id_returns_zero 16 0 GlState.zeroed 99
    (by decide) (by decide) (by decide)

/-- C10: calling the shared-handle accessor with any id whatsoever — known
or unknown — performs the deferred GPU-object creation as a side effect:
starting from a not-yet-initialized state, after the call the
init-complete flag is set and all three GPU objects exist (nonzero,
pairwise distinct handles), because `gl_deferred_init` runs before the
`switch` inspects the id. -/
theorem C10_deferred_init_runs_for_any_id (N names : ℕ) (gl : GlState)
    (id : ℤ) (h : gl.init_complete = false) :
    let r := fosphor_gl_get_shared_id N gl names id
    r.gl.init_complete = true ∧
    r.gl.tex_waterfall ≠ 0 ∧ r.gl.tex_histogram ≠ 0 ∧
    r.gl.vbo_spectrum ≠ 0 ∧
    r.gl.tex_waterfall ≠ r.gl.tex_histogram ∧
    r.gl.tex_histogram ≠ r.gl.vbo_spectrum ∧
    r.gl.tex_waterfall ≠ r.gl.vbo_spectrum ∧
    creationCount r.events = 3 := by
  obtain ⟨hgl, _, _, hevents⟩ := shared_id_of_incomplete N names gl id h
  refine ⟨?_, ?_, ?_, ?_, ?_, ?_, ?_, ?_⟩
  · rw [hgl]; rfl
  · rw [hgl]; simp [GlState.afterDeferred]
  · rw [hgl]; simp [GlState.afterDeferred]
  · rw [hgl]; simp [GlState.afterDeferred]
  · rw [hgl]; simp [GlState.afterDeferred]
  · rw [hgl]; simp [GlState.afterDeferred]
  · rw [hgl]; simp [GlState.afterDeferred]
  · rw [hevents]
    exact creationCount_deferred N gl names h

set_option maxHeartbeats 1600000 in
/-- C8: every call to `fosphor_gl_draw` — for every render request,
including one with no layer enabled at all — issues the `glFinish`
completion barrier exactly once, as the final event of its trace, before
returning control to the caller. -/
theorem C8_finish_is_final_action (N : ℕ) (gl : GlState) (power : PowerCal)
    (freq : FreqCal) (render : Render) :
    (fosphor_gl_draw N gl power freq render).getLast? =
        some GLEvent.finish ∧
      (fosphor_gl_draw N gl power freq render).countP isFinish = 1 := by
  obtain ⟨⟨wf, hi, li, mh, lp, lf⟩, fs, fp, span, pos, x0, x1, yw0, yw1,
    yh0, yh1, xd, yd, xl, yl⟩ := render
  cases wf <;> cases hi <;> cases li <;> cases mh <;> cases lp <;>
    cases lf <;> exact ⟨rfl, rfl⟩

/-- C1: `fosphor_gl_draw` renders the live polyline as one contiguous run
starting at index `1 + ceil(freq_start*(N-1) - 0.5)` with point count
`last - first + 1` where `last = 1 + floor(freq_stop*(N-1) - 0.5)`, and
the max-hold polyline as the same run shifted by the storage half-offset
`N`; for the full window `freq_start = 0`, `freq_stop = 1` the index range
is exactly `[1, N-1]`, never touching bin `0` or bin `N`. -/
theorem C1_spectrum_polyline_run (N : ℕ) (gl : GlState) (power : PowerCal)
    (freq : FreqCal) (render : Render) :
    liveStrips (fosphor_gl_draw N gl power freq render) =
      (if render.options.live then
        [(1 + ⌈render.freq_start * ((N : ℚ) - 1) - 1/2⌉,
          (1 + ⌊render.freq_stop * ((N : ℚ) - 1) - 1/2⌋) -
            (1 + ⌈render.freq_start * ((N : ℚ) - 1) - 1/2⌉) + 1)]
       else []) ∧
    holdStrips (fosphor_gl_draw N gl power freq render) =
      (if render.options.maxHold then
        [((1 + ⌈render.freq_start * ((N : ℚ) - 1) - 1/2⌉) + (N : ℤ),
          (1 + ⌊render.freq_stop * ((N : ℚ) - 1) - 1/2⌋) -
            (1 + ⌈render.freq_start * ((N : ℚ) - 1) - 1/2⌉) + 1)]
       else []) ∧
    (2 ≤ N → render.freq_start = 0 → render.freq_stop = 1 →
      1 + ⌈render.freq_start * ((N : ℚ) - 1) - 1/2⌉ = 1 ∧
      1 + ⌊render.freq_stop * ((N : ℚ) - 1) - 1/2⌋ = (N : ℤ) - 1) := by
  obtain ⟨⟨wf, hi, li, mh, lp, lf⟩, fs, fp, span, pos, x0, x1, yw0, yw1,
    yh0, yh1, xd, yd, xl, yl⟩ := render
  refine ⟨?_, ?_, ?_⟩
  · cases wf <;> cases hi <;> cases li <;> cases mh <;> cases lp <;>
      cases lf <;> rfl
  · cases wf <;> cases hi <;> cases li <;> cases mh <;> cases lp <;>
      cases lf <;> rfl
  · intro hN h0 h1
    subst h0 h1
    constructor
    · have hc : ⌈(0 : ℚ) * ((N : ℚ) - 1) - 1/2⌉ = 0 := by
        rw [Int.ceil_eq_iff]
        norm_num
      rw [hc]
      norm_num
    · have hf : ⌊(1 : ℚ) * ((N : ℚ) - 1) - 1/2⌋ = (N : ℤ) - 2 := by
        rw [Int.floor_eq_iff]
        constructor
        · push_cast
          have : (2 : ℚ) ≤ (N : ℚ) := by exact_mod_cast hN
          linarith
        · push_cast
          linarith
      rw [hf]
      omega

/-- Witness for C1 at `N = 1024` and a concrete full-window request: the
full-window index range is exactly `[1, 1023]`. -/
theorem C1_spectrum_polyline_run_witness :
    1 + ⌈(0 : ℚ) * ((1024 : ℚ) - 1) - 1/2⌉ = 1 ∧
    1 + ⌊(1 : ℚ) * ((1024 : ℚ) - 1) - 1/2⌋ = (1024 : ℤ) - 1 :=
  (C1_spectrum_polyline_run 1024 GlState.zeroed ⟨1, 0, 0, 10⟩ ⟨0, 1⟩
      ⟨⟨false, false, true, true, false, false⟩, 0, 1, 0, 0,
       0, 1, 0, 1, 0, 1, 0, 0, 0, 0⟩).2.2 (by norm_num) rfl rfl

set_option maxHeartbeats 1600000 in
/-- C6: both the waterfall quad and the histogram quad compute their
horizontal texture coordinates by the same formula
`u = 0.5 + texel_width + (1 - texel_width) * f` with
`texel_width = 1/N`, applied to both `freq_start` and `freq_stop`; the
waterfall quad's vertical coordinates are `v_end = wf_pos / 1024` and
`v_start = v_end - wf_span`, left unclamped, so `v_end - v_start` equals
the requested span exactly (also when `v_start` is negative or the window
crosses the ring boundary). -/
theorem C6_quad_texture_coordinates (N : ℕ) (gl : GlState)
    (power : PowerCal) (freq : FreqCal) (render : Render) :
    wfQuadCoords (fosphor_gl_draw N gl power freq render) =
      (if render.options.waterfall then
        [(1/2 + 1/(N : ℚ) + (1 - 1/(N : ℚ)) * render.freq_start,
          1/2 + 1/(N : ℚ) + (1 - 1/(N : ℚ)) * render.freq_stop,
          (render.wf_pos : ℚ)/1024 - render.wf_span,
          (render.wf_pos : ℚ)/1024)]
       else []) ∧
    histoQuadCoords (fosphor_gl_draw N gl power freq render) =
      (if render.options.histo then
        [(1/2 + 1/(N : ℚ) + (1 - 1/(N : ℚ)) * render.freq_start,
          1/2 + 1/(N : ℚ) + (1 - 1/(N : ℚ)) * render.freq_stop)]
       else []) ∧
    (∀ p ∈ wfQuadCoords (fosphor_gl_draw N gl power freq render),
      p.2.2.2 - p.2.2.1 = render.wf_span) := by
  obtain ⟨⟨wf, hi, li, mh, lp, lf⟩, fs, fp, span, pos, x0, x1, yw0, yw1,
    yh0, yh1, xd, yd, xl, yl⟩ := render
  have h1 : wfQuadCoords (fosphor_gl_draw N gl power freq
      ⟨⟨wf, hi, li, mh, lp, lf⟩, fs, fp, span, pos, x0, x1, yw0, yw1,
       yh0, yh1, xd, yd, xl, yl⟩) =
      (if wf then
        [(1/2 + 1/(N : ℚ) + (1 - 1/(N : ℚ)) * fs,
          1/2 + 1/(N : ℚ) + (1 - 1/(N : ℚ)) * fp,
          (pos : ℚ)/1024 - span, (pos : ℚ)/1024)]
       else []) := by
    cases wf <;> cases hi <;> cases li <;> cases mh <;> cases lp <;>
      cases lf <;> rfl
  have h2 : histoQuadCoords (fosphor_gl_draw N gl power freq
      ⟨⟨wf, hi, li, mh, lp, lf⟩, fs, fp, span, pos, x0, x1, yw0, yw1,
       yh0, yh1, xd, yd, xl, yl⟩) =
      (if hi then
        [(1/2 + 1/(N : ℚ) + (1 - 1/(N : ℚ)) * fs,
          1/2 + 1/(N : ℚ) + (1 - 1/(N : ℚ)) * fp)]
       else []) := by
    cases wf <;> cases hi <;> cases li <;> cases mh <;> cases lp <;>
      cases lf <;> rfl
  refine ⟨h1, h2, ?_⟩
  intro p hp
  rw [h1] at hp
  rcases wf with _ | _
  · simp at hp
  · rw [if_pos rfl] at hp
    rcases List.mem_singleton.mp hp with rfl
    ring

/-- Witness for C6 at a concrete request whose scroll window crosses the
ring boundary (`v_start` negative): the span is still reproduced. -/
theorem C6_quad_texture_coordinates_witness :
    ∀ p ∈ wfQuadCoords (fosphor_gl_draw 16 GlState.zeroed ⟨1, 0, 0, 10⟩
        ⟨0, 1⟩ ⟨⟨true, false, false, false, false, false⟩, 0, 1, 10, 5,
         0, 1, 0, 1, 0, 1, 0, 0, 0, 0⟩),
      p.2.2.2 - p.2.2.1 = (10 : ℚ) :=
  (C6_quad_texture_coordinates 16 GlState.zeroed ⟨1, 0, 0, 10⟩ ⟨0, 1⟩
    ⟨⟨true, false, false, false, false, false⟩, 0, 1, 10, 5,
     0, 1, 0, 1, 0, 1, 0, 0, 0, 0⟩).2.2

set_option maxHeartbeats 1600000 in
/-- C7: whenever the grid is drawn (a histogram or spectrum layer is
requested), exactly 11 vertical and 11 horizontal grid lines are produced
(indices 0..10), regardless of the viewport values; each power-axis
label, when enabled, prints `db_ref - (10-i)*db_per_div` for line `i`;
and the 5-pixel inward frequency-label offset is applied only to the two
boundary lines (`+5` for line 0, `-5` for line 10, `0` for 1..9). -/
theorem C7_grid_lines_and_labels (N : ℕ) (gl : GlState) (power : PowerCal)
    (freq : FreqCal) (render : Render)
    (h : (render.options.live || render.options.maxHold ||
      render.options.histo) = true) :
    (fosphor_gl_draw N gl power freq render).countP isGridV = 11 ∧
    (fosphor_gl_draw N gl power freq render).countP isGridH = 11 ∧
    powerLabels (fosphor_gl_draw N gl power freq render) =
      (if render.options.labelPwr then
        (List.range 11).map (fun i : ℕ =>
          (render.x_label, render.y_histo0 + (i : ℚ) * render.y_histo_div,
           power.db_ref - (10 - (i : ℤ)) * power.db_per_div))
       else []) ∧
    freqLabelXs (fosphor_gl_draw N gl power freq render) =
      (if render.options.labelFreq then
        (List.range 11).map (fun i : ℕ =>
          (render.x0 + (i : ℚ) * render.x_div) +
            (if i = 0 then (5 : ℚ) else if i = 10 then -5 else 0))
       else []) := by
  obtain ⟨⟨wf, hi, li, mh, lp, lf⟩, fs, fp, span, pos, x0, x1, yw0, yw1,
    yh0, yh1, xd, yd, xl, yl⟩ := render
  cases wf <;> cases hi <;> cases li <;> cases mh <;> cases lp <;>
    cases lf <;>
    first
      | exact ⟨rfl, rfl, rfl, rfl⟩
      | simp at h

/-- Witness for C7 at a concrete histogram request with both labels. -/
theorem C7_grid_lines_and_labels_witness :
    (fosphor_gl_draw 16 GlState.zeroed ⟨1, 0, 0, 10⟩ ⟨0, 1⟩
        ⟨⟨false, true, false, false, true, true⟩, 0, 1, 0, 0,
         0, 1, 0, 1, 0, 1, 0, 0, 0, 0⟩).countP isGridV = 11 ∧
    (fosphor_gl_draw 16 GlState.zeroed ⟨1, 0, 0, 10⟩ ⟨0, 1⟩
        ⟨⟨false, true, false, false, true, true⟩, 0, 1, 0, 0,
         0, 1, 0, 1, 0, 1, 0, 0, 0, 0⟩).countP isGridH = 11 :=
  ⟨(C7_grid_lines_and_labels 16 GlState.zeroed ⟨1, 0, 0, 10⟩ ⟨0, 1⟩
      ⟨⟨false, true, false, false, true, true⟩, 0, 1, 0, 0,
       0, 1, 0, 1, 0, 1, 0, 0, 0, 0⟩ (by decide)).1,
   (C7_grid_lines_and_labels 16 GlState.zeroed ⟨1, 0, 0, 10⟩ ⟨0, 1⟩
      ⟨⟨false, true, false, false, true, true⟩, 0, 1, 0, 0,
       0, 1, 0, 1, 0, 1, 0, 0, 0, 0⟩ (by decide)).2.1⟩

set_option maxHeartbeats 1600000 in
/-- C2 (amended): every draw issues its layers in the fixed order
waterfall quad, then at most one of the histogram quad or the flat
background quad (the histogram quad iff histogram is requested, the
background quad iff a spectrum layer is requested and histogram is not,
never both), then the live and max-hold polylines, then grid and labels,
and the grid/label pass runs iff at least one of histogram, live or
max-hold is requested (waterfall alone does not trigger it). -/
theorem C2_layer_order_amended (N : ℕ) (gl : GlState) (power : PowerCal)
    (freq : FreqCal) (render : Render) :
    layerTags (fosphor_gl_draw N gl power freq render) =
      (if render.options.waterfall then [.wf] else []) ++
      (if render.options.histo then [.histo]
       else if render.options.live || render.options.maxHold then [.bg]
       else []) ++
      ((if render.options.live then [.live] else []) ++
        (if render.options.maxHold then [.hold] else [])) ++
      (if render.options.live || render.options.maxHold ||
          render.options.histo then gridTags render.options else []) ++
      [.fin] := by
  obtain ⟨⟨wf, hi, li, mh, lp, lf⟩, fs, fp, span, pos, x0, x1, yw0, yw1,
    yh0, yh1, xd, yd, xl, yl⟩ := render
  cases wf <;> cases hi <;> cases li <;> cases mh <;> cases lp <;>
    cases lf <;> rfl

/-- Counterexample to C2 as stated: for the request enabling only the
waterfall layer — a visual layer — the trace contains the waterfall quad
and the final barrier but no histogram quad, no background quad and no
grid/label event at all, refuting "grid and labels are drawn whenever any
visual layer is requested" (and "exactly one of the histogram quad or a
flat background quad"). -/
theorem C2_layer_order_counterexample :
    (⟨⟨true, false, false, false, false, false⟩, 0, 1, 0, 0,
      0, 1, 0, 1, 0, 1, 0, 0, 0, 0⟩ : Render).options.waterfall = true ∧
    layerTags (fosphor_gl_draw 16 GlState.zeroed ⟨1, 0, 0, 10⟩ ⟨0, 1⟩
        ⟨⟨true, false, false, false, false, false⟩, 0, 1, 0, 0,
         0, 1, 0, 1, 0, 1, 0, 0, 0, 0⟩) = [.wf, .fin] := by
  exact ⟨rfl, rfl⟩

/-- C5: `fosphor_gl_release` frees the GPU objects in strict
reverse-of-creation order — spectrum buffer, then histogram and waterfall
textures, then the two colormap LUTs, then the colormap subsystem, then
the font — tolerates a NULL state (no call is issued, nothing is freed),
and NULLs the caller's `self->gl`; consequently releasing twice in a row,
or releasing a never-initialized state, issues no further call and does
not fault (in the model: the second release is a total no-op). -/
theorem C5_release_order_and_tolerance (selfGl : Option GlState)
    (heap : Heap) :
    (fosphor_gl_release selfGl heap).selfGl = none ∧
    (∀ gl, selfGl = some gl →
      (fosphor_gl_release selfGl heap).events =
        [.deleteBuffer gl.vbo_spectrum, .deleteTexture gl.tex_histogram,
         .deleteTexture gl.tex_waterfall, .deleteTexture gl.cmap_histogram,
         .deleteTexture gl.cmap_waterfall, .cmapRelease gl.cmap_ctx,
         .fontFree gl.font, .freeState]) ∧
    (selfGl = none →
      (fosphor_gl_release selfGl heap).events = [] ∧
      (fosphor_gl_release selfGl heap).heap = heap) ∧
    (fosphor_gl_release (fosphor_gl_release selfGl heap).selfGl
        (fosphor_gl_release selfGl heap).heap).events = [] ∧
    (fosphor_gl_release (fosphor_gl_release selfGl heap).selfGl
        (fosphor_gl_release selfGl heap).heap).heap =
      (fosphor_gl_release selfGl heap).heap := by
  cases selfGl with
  | none =>
    refine ⟨rfl, ?_, fun _ => ⟨rfl, rfl⟩, rfl, rfl⟩
    intro gl hgl
    exact Option.noConfusion hgl
  | some gl =>
    refine ⟨rfl, ?_, ?_, rfl, rfl⟩
    · intro g hg
      cases hg
      rfl
    · intro hn
      exact Option.noConfusion hn

/-- Witness for C5 on a concrete fully-initialized state: the exact
reverse-order call sequence, and the immediate second release a no-op. -/
theorem C5_release_order_and_tolerance_witness :
    (fosphor_gl_release (some ⟨true, 1, 1, 5, 6, 7, 8, 9⟩)
        ⟨1, 1, 1, 4, 1⟩).events =
      [.deleteBuffer 9, .deleteTexture 8, .deleteTexture 7,
       .deleteTexture 6, .deleteTexture 5, .cmapRelease 1, .fontFree 1,
       .freeState] ∧
    (fosphor_gl_release
        (fosphor_gl_release (some ⟨true, 1, 1, 5, 6, 7, 8, 9⟩)
          ⟨1, 1, 1, 4, 1⟩).selfGl
        (fosphor_gl_release (some ⟨true, 1, 1, 5, 6, 7, 8, 9⟩)
          ⟨1, 1, 1, 4, 1⟩).heap).events = [] :=
  ⟨(C5_release_order_and_tolerance (some ⟨true, 1, 1, 5, 6, 7, 8, 9⟩)
      ⟨1, 1, 1, 4, 1⟩).2.1 ⟨true, 1, 1, 5, 6, 7, 8, 9⟩ rfl,
   (C5_release_order_and_tolerance (some ⟨true, 1, 1, 5, 6, 7, 8, 9⟩)
      ⟨1, 1, 1, 4, 1⟩).2.2.2.1⟩

set_option maxHeartbeats 3200000 in
/-- C4: starting from a fresh caller (`self->gl == NULL`), `init` either
returns success (`0`) with all host-side resources constructed — font,
colormap subsystem and both 256-entry LUTs — or it fails with the error
of the failed step: `-ENOMEM` when an allocation fails, `-ENOENT` when
the embedded font bytes are not found, the nonzero `glf_load_face_mem`
code when glyph parsing fails, and the nonzero folded colormap code when
colormap setup or LUT generation fails; and on any failure it tears down
everything partially constructed before returning: `self->gl` is NULL
again and every allocation counter is back to its initial value. -/
theorem C4_init_success_or_matched_error (env : InitEnv) (heap : Heap)
    (names : ℕ) :
    let r := fosphor_gl_init env none heap names
    (r.rv = 0 → ∃ gl, r.selfGl = some gl ∧ gl.font ≠ 0 ∧
      gl.cmap_ctx ≠ 0 ∧ gl.cmap_waterfall ≠ 0 ∧ gl.cmap_histogram ≠ 0 ∧
      r.events = [.fontAlloc, .resourceGet, .loadFace, .cmapInit,
        .cmapGenerate gl.cmap_waterfall 256,
        .cmapGenerate gl.cmap_histogram 256] ∧
      r.heap = ⟨heap.stateAllocs + 1, heap.fontAllocs + 1,
        heap.cmapCtxAllocs + 1, heap.glTextures + 1 + 1,
        heap.glBuffers⟩) ∧
    (r.rv ≠ 0 → r.selfGl = none ∧ r.heap = heap) ∧
    (env.mallocOk = false → r.rv = NEG_ENOMEM) ∧
    (env.mallocOk = true → env.fontAllocOk = false →
      r.rv = NEG_ENOMEM) ∧
    (env.mallocOk = true → env.fontAllocOk = true →
      env.fontResource = none → r.rv = NEG_ENOENT) ∧
    (env.mallocOk = true → env.fontAllocOk = true →
      env.fontResource ≠ none → env.loadFaceRv ≠ 0 →
      r.rv = env.loadFaceRv) ∧
    (env.mallocOk = true → env.fontAllocOk = true →
      env.fontResource ≠ none → env.loadFaceRv = 0 →
      (env.cmapInitOk = false ∨ env.cmapGenWfRv ≠ 0 ∨
        env.cmapGenHistRv ≠ 0) →
      (r.rv = Int.lor (Int.lor (if env.cmapInitOk then 0 else 1)
        env.cmapGenWfRv) env.cmapGenHistRv ∧ r.rv ≠ 0)) := by
  obtain ⟨a, b, c, d, e⟩ := heap
  obtain ⟨mOk, fOk, fRes, lRv, cOk, gWf, gHist⟩ := env
  by_cases hw : gWf = 0 <;> by_cases hh : gHist = 0 <;>
    cases mOk <;> cases fOk <;> rcases fRes with _ | len <;>
    by_cases hl : lRv = 0 <;> cases cOk <;>
    simp_all [fosphor_gl_init, initFail, fosphor_gl_release,
      glDeleteBufferOp, glDeleteTextureOp, fosphor_gl_cmap_release,
      glf_free, GlState.zeroed, NEG_ENOMEM, NEG_ENOENT,
      int_lor_eq_zero_iff]

/-- Witness for C4: a run in which every collaborator succeeds returns
`0` with the font, the colormap subsystem and both LUTs constructed. -/
theorem C4_init_success_or_matched_error_witness :
    (fosphor_gl_init ⟨true, true, some 1000, 0, true, 0, 0⟩ none
        ⟨0, 0, 0, 0, 0⟩ 0).rv = 0 ∧
    ∃ gl, (fosphor_gl_init ⟨true, true, some 1000, 0, true, 0, 0⟩ none
        ⟨0, 0, 0, 0, 0⟩ 0).selfGl = some gl ∧ gl.font ≠ 0 ∧
      gl.cmap_ctx ≠ 0 ∧ gl.cmap_waterfall ≠ 0 ∧ gl.cmap_histogram ≠ 0 :=
  ⟨by decide,
   by
    obtain ⟨gl, h1, h2, h3, h4, h5, _⟩ :=
      (C4_init_success_or_matched_error ⟨true, true, some 1000, 0, true, 0, 0⟩
        ⟨0, 0, 0, 0, 0⟩ 0).1 (by decide)
    exact ⟨gl, h1, h2, h3, h4, h5⟩⟩

/-- Witness for C10 at the concrete unknown id `12345`. -/
theorem C10_deferred_init_runs_for_any_id_witness :
    let r := fosphor_gl_get_shared_id 16 GlState.zeroed 0 12345
    r.gl.init_complete = true ∧
    r.gl.tex_waterfall ≠ 0 ∧ r.gl.tex_histogram ≠ 0 ∧
    r.gl.vbo_spectrum ≠ 0 ∧
    r.gl.tex_waterfall ≠ r.gl.tex_histogram ∧
    r.gl.tex_histogram ≠ r.gl.vbo_spectrum ∧
    r.gl.tex_waterfall ≠ r.gl.vbo_spectrum ∧
    creationCount r.events = 3 :=
  C10_deferred_init_runs_for_any_id 16 0 GlState.zeroed 12345 rfl

end FosphorGL
